import Mathlib

/-!
Verification development for the Bokun availability manager
(`bokun_api_manager.py`): a Flask app that signs Bokun REST calls with
HMAC-SHA1, fetches availability rules, normalizes them, appends a new
single-date rule, and writes the collection back.

The embedding is shallow: each Python function that the claims touch is
translated into an executable Lean definition over a JSON value model.
Machine integers do not occur (Python ints are unbounded); 32-bit
arithmetic inside SHA-1 is `Nat` with explicit `% 2 ^ 32`.
-/

/-- JSON values, as produced by `response.json()` / `request.json` in the
source.  Objects are association lists keyed by strings; parsed JSON has
distinct keys, so `List.lookup` models Python dict access.  Floats do not
occur in the payloads the source manipulates and are omitted. -/
inductive JVal where
  | null : JVal
  | bool (b : Bool) : JVal
  | int (n : Int) : JVal
  | str (s : String) : JVal
  | arr (elems : List JVal) : JVal
  | obj (fields : List (String × JVal)) : JVal

/-- Python truthiness of a JSON value: `None`, `False`, `0`, `""`, `[]`,
`{}` are falsy, everything else truthy.  Used by the source at
`if st['id']` and `if rule_copy.get('startTimes')`. -/
def JVal.truthy : JVal → Bool
  | .null => false
  | .bool b => b
  | .int n => n != 0
  | .str s => s != ""
  | .arr elems => !elems.isEmpty
  | .obj fields => !fields.isEmpty

namespace Crypto

/-- 2^32, the modulus of every 32-bit operation inside SHA-1. -/
def w32 : Nat := 4294967296

/-- Left rotation of a 32-bit word (operand assumed `< w32`). -/
def rotl (n x : Nat) : Nat := ((x <<< n) % w32) ||| (x >>> (32 - n))

/-- Big-endian serialization of `n` into `k` bytes. -/
def toBytesBE : Nat → Nat → List Nat
  | 0, _ => []
  | k + 1, n => toBytesBE k (n / 256) ++ [n % 256]

/-- SHA-1 padding (FIPS 180-4): append `0x80`, zero-pad so the length is
56 mod 64, then the 64-bit big-endian bit length. -/
def sha1Pad (msg : List Nat) : List Nat :=
  let padZeros := (55 + 64 - msg.length % 64) % 64
  msg ++ [0x80] ++ List.replicate padZeros 0 ++ toBytesBE 8 (msg.length * 8)

/-- Big-endian 4-byte groups to 32-bit words. -/
def bytesToWords : List Nat → List Nat
  | b0 :: b1 :: b2 :: b3 :: rest =>
      (((b0 * 256 + b1) * 256 + b2) * 256 + b3) :: bytesToWords rest
  | _ => []

/-- Message-schedule extension, accumulator in reverse order: prepend
`rotl 1 (w[i-3] xor w[i-8] xor w[i-14] xor w[i-16])` `n` times. -/
def sha1ExtendRev : List Nat → Nat → List Nat
  | acc, 0 => acc
  | acc, n + 1 =>
      sha1ExtendRev
        (rotl 1 ((acc.getD 2 0) ^^^ (acc.getD 7 0) ^^^ (acc.getD 13 0) ^^^ (acc.getD 15 0)) :: acc)
        n

/-- The 80-word SHA-1 message schedule of one 64-byte block. -/
def sha1Schedule (block : List Nat) : List Nat :=
  (sha1ExtendRev (bytesToWords block).reverse 64).reverse

/-- SHA-1 round function, by round index. -/
def sha1F (i b c d : Nat) : Nat :=
  if i < 20 then (b &&& c) ||| ((b ^^^ 0xFFFFFFFF) &&& d)
  else if i < 40 then b ^^^ c ^^^ d
  else if i < 60 then (b &&& c) ||| (b &&& d) ||| (c &&& d)
  else b ^^^ c ^^^ d

/-- SHA-1 round constant, by round index. -/
def sha1K (i : Nat) : Nat :=
  if i < 20 then 0x5A827999
  else if i < 40 then 0x6ED9EBA1
  else if i < 60 then 0x8F1BBCDC
  else 0xCA62C1D6

/-- One compression pass over the schedule, starting at round `i`. -/
def sha1Rounds : Nat → List Nat → Nat × Nat × Nat × Nat × Nat → Nat × Nat × Nat × Nat × Nat
  | _, [], st => st
  | i, w :: ws, (a, b, c, d, e) =>
      sha1Rounds (i + 1) ws
        (((rotl 5 a) + sha1F i b c d + e + sha1K i + w) % w32, a, rotl 30 b, c, d)

/-- Process one 64-byte block: compress and add into the chaining state. -/
def sha1Block (h : Nat × Nat × Nat × Nat × Nat) (block : List Nat) :
    Nat × Nat × Nat × Nat × Nat :=
  match h, sha1Rounds 0 (sha1Schedule block) h with
  | (h0, h1, h2, h3, h4), (a, b, c, d, e) =>
      ((h0 + a) % w32, (h1 + b) % w32, (h2 + c) % w32, (h3 + d) % w32, (h4 + e) % w32)

/-- Split into 64-byte chunks, fuelled by the list length. -/
def chunk64Go : Nat → List Nat → List (List Nat)
  | 0, _ => []
  | _, [] => []
  | fuel + 1, l => l.take 64 :: chunk64Go fuel (l.drop 64)

/-- Split a byte list into 64-byte chunks. -/
def chunk64 (l : List Nat) : List (List Nat) := chunk64Go l.length l

/-- SHA-1 of a byte list, as a 20-byte list (FIPS 180-4). -/
def sha1 (msg : List Nat) : List Nat :=
  match (chunk64 (sha1Pad msg)).foldl sha1Block
      (0x67452301, 0xEFCDAB89, 0x98BADCFE, 0x10325476, 0xC3D2E1F0) with
  | (h0, h1, h2, h3, h4) =>
      toBytesBE 4 h0 ++ toBytesBE 4 h1 ++ toBytesBE 4 h2 ++ toBytesBE 4 h3 ++ toBytesBE 4 h4

/-- HMAC-SHA1 (FIPS 198-1), the construction behind `hmac.new(...,
hashlib.sha1)` in `get_bokun_headers`. -/
def hmacSha1 (key msg : List Nat) : List Nat :=
  let k0 := if 64 < key.length then sha1 key else key
  let k := k0 ++ List.replicate (64 - k0.length) 0
  sha1 ((k.map fun b => b ^^^ 0x5C) ++ sha1 ((k.map fun b => b ^^^ 0x36) ++ msg))

/-- Character `n` of the standard base64 alphabet. -/
def b64Char (n : Nat) : Char :=
  "ABCDEFGHIJKLMNOPQRSTUVWXYZabcdefghijklmnopqrstuvwxyz0123456789+/".toList.getD n '='

/-- Standard base64 of a byte list, with `=` padding, as produced by
`base64.b64encode` in the source. -/
def base64Encode : List Nat → String
  | [] => ""
  | [a] => String.mk [b64Char (a / 4), b64Char (a % 4 * 16), '=', '=']
  | [a, b] => String.mk [b64Char (a / 4), b64Char (a % 4 * 16 + b / 16), b64Char (b % 16 * 4), '=']
  | a :: b :: c :: rest =>
      String.mk [b64Char (a / 4), b64Char (a % 4 * 16 + b / 16),
        b64Char (b % 16 * 4 + c / 64), b64Char (c % 64)] ++ base64Encode rest

/-- Bytes of a string under `str.encode()`; the keys, timestamps, methods
and paths the source signs are ASCII, where code points are the UTF-8
bytes. -/
def strBytes (s : String) : List Nat := s.data.map Char.toNat

end Crypto

/-- Embedding of `get_bokun_headers(method, path)`.  The wall-clock
timestamp (`datetime.now(timezone.utc).strftime('%Y-%m-%d %H:%M:%S')`)
and the two key globals (`BOKUN_ACCESS_KEY`, `BOKUN_SECRET_KEY`, read
from the environment at start-up) become explicit arguments. -/
def get_bokun_headers (accessKey secretKey dateStr method path : String) :
    List (String × String) :=
  let signatureString := dateStr ++ accessKey ++ method.toUpper ++ path
  let signature :=
    Crypto.base64Encode (Crypto.hmacSha1 (Crypto.strBytes secretKey)
      (Crypto.strBytes signatureString))
  [("X-Bokun-Date", dateStr), ("X-Bokun-AccessKey", accessKey),
   ("X-Bokun-Signature", signature), ("Content-Type", "application/json")]

/-- An availability rule as fetched from the remote AVAILABILITY_RULES
component, restricted to the recognized keys and to the value types the
handler's arithmetic requires (`recurrenceRule` and `maxCapacity` are
accessed unconditionally, so they are required; `maxCapacityForPickup`
flows into the `< 1` comparison and `maxCapacity` is its fallback, so
both carry Python ints — any other type would raise in the source and
land in the 500 handler).  `Option` marks a key that may be absent. -/
structure SrcRule where
  recurrenceRule : JVal
  maxCapacity : Int
  maxCapacityForPickup : Option Int
  minTotalPax : Option Int
  guidedLanguages : Option JVal
  id : Option JVal
  startTimes : Option JVal
  allStartTimes : Option JVal

/-- The shape of a rule dict the handler writes back: the cleaned form of
an existing rule, and also the newly built rule (`id = none` there).
`startTimes`, when present, is a list of `{'id': v}` objects. -/
@[ext]
structure CleanRule where
  recurrenceRule : JVal
  maxCapacity : Int
  maxCapacityForPickup : Int
  minTotalPax : Int
  guidedLanguages : JVal
  id : Option JVal
  allStartTimes : Option Bool
  startTimes : Option (List JVal)

/-- The start-time cleaning loop: keep each entry that is a dict with a
truthy `id`, rebuilt as a dict holding only that id
(`for st in rule_copy['startTimes']: if isinstance(st, dict) and 'id' in
st and st['id']: cleaned_times.append({'id': st['id']})`). -/
def cleanStartTimes : List JVal → List JVal
  | [] => []
  | st :: rest =>
    match st with
    | .obj fields =>
        match fields.lookup "id" with
        | some v =>
            if v.truthy then .obj [("id", v)] :: cleanStartTimes rest
            else cleanStartTimes rest
        | none => cleanStartTimes rest
    | _ => cleanStartTimes rest

/-- Whether the loop keeps an entry: it is a dict with a truthy `id`. -/
def validStartTime (st : JVal) : Bool :=
  match st with
  | .obj fields =>
      match fields.lookup "id" with
      | some v => v.truthy
      | none => false
  | _ => false

/-- The id value of a start-time entry (meaningful when
`validStartTime` holds). -/
def startTimeId (st : JVal) : JVal :=
  match st with
  | .obj fields => (fields.lookup "id").getD .null
  | _ => .null

/-- The start-time keys the cleaning step adds (source lines 246-261):
nothing outside `DATE_AND_TIME`; under `DATE_AND_TIME`, a `startTimes`
value that is a non-empty list is reduced to its valid entries
(`allStartTimes = False` when any survive), and every other case —
key absent, value falsy or not a list, empty list, or no valid entry —
yields `allStartTimes = True` with no `startTimes` key.  The pair is
`(allStartTimes, startTimes)`. -/
def cleanRuleStartTimes (bookingType : String) (r : SrcRule) :
    Option Bool × Option (List JVal) :=
  if bookingType == "DATE_AND_TIME" then
    match r.startTimes with
    | some (.arr entries) =>
        if entries.isEmpty then (some true, none)
        else
          let cleanedTimes := cleanStartTimes entries
          if cleanedTimes.isEmpty then (some true, none)
          else (some false, some cleanedTimes)
    | _ => (some true, none)
  else (none, none)

/-- Per-rule cleaning step of `add_availability_rule` (source lines
226-263): rebuild the rule from recognized fields only, default
`maxCapacityForPickup` to `maxCapacity` when absent and replace it by
`maxCapacity` when `< 1`, keep `id` when present, and attach the
start-time keys of `cleanRuleStartTimes`. -/
def cleanRule (bookingType : String) (r : SrcRule) : CleanRule :=
  let pickup0 := r.maxCapacityForPickup.getD r.maxCapacity
  { recurrenceRule := r.recurrenceRule
    maxCapacity := r.maxCapacity
    maxCapacityForPickup := if pickup0 < 1 then r.maxCapacity else pickup0
    minTotalPax := r.minTotalPax.getD 1
    guidedLanguages := r.guidedLanguages.getD (.arr [])
    id := r.id
    allStartTimes := (cleanRuleStartTimes bookingType r).1
    startTimes := (cleanRuleStartTimes bookingType r).2 }

/-- The new rule built in Step 2 of `add_availability_rule` (source lines
192-221): single-day recurrence window, both capacities set to the
requested capacity, `minTotalPax = 1`, no id, and the start-time keys
set only when the authoritative booking type is `DATE_AND_TIME`
(`weekdays` and `months` are always empty, so `byWeekday` / `byMonth`
are never added to the recurrence rule). -/
def buildNewRule (date : String) (capacity : Int) (bookingType : String)
    (startTimeIds : List JVal) : CleanRule :=
  let base : CleanRule :=
    { recurrenceRule := .obj [("startDate", .str date), ("endDate", .str date)]
      maxCapacity := capacity
      maxCapacityForPickup := capacity
      minTotalPax := 1
      guidedLanguages := .arr []
      id := none
      allStartTimes := none
      startTimes := none }
  if bookingType == "DATE_AND_TIME" then
    if startTimeIds.isEmpty then { base with allStartTimes := some true }
    else
      { base with allStartTimes := some false
                  startTimes := some (startTimeIds.map fun sid => .obj [("id", sid)]) }
  else base

/-- Request body of `POST /api/add-availability-rule`, after the
handler's `data.get` defaulting (`capacity` defaults to 12,
`booking_type` to `'DATE_ONLY'`, `start_time_ids` to `[]`,
`all_start_times` to `True`). -/
structure AddRuleRequest where
  experience_id : Int
  date : String
  capacity : Int
  booking_type : String
  start_time_ids : List JVal
  all_start_times : Bool

/-- Parsed body of the AVAILABILITY_RULES component GET: both keys the
handler reads are optional (`existing.get('availabilityRules', [])`,
`existing.get('bookingType', 'DATE_ONLY')`). -/
structure RulesPayload where
  availabilityRules : Option (List SrcRule)
  bookingType : Option String

/-- An upstream GET of the AVAILABILITY_RULES component: status code, raw
body text (used in error messages), and the parsed body (used only when
the status is 200). -/
structure RulesGetResp where
  status : Nat
  text : String
  json : RulesPayload

/-- The upstream response to the PUT write-back: status code, raw body
text, and the saved collection from the parsed body
(`result.get('availabilityRules', [])`). -/
structure PutResp where
  status : Nat
  text : String
  savedRules : Option (List JVal)

/-- A JSON response of this system's own HTTP surface, with its HTTP
status code and the keys the handlers set. -/
structure ApiResponse where
  httpStatus : Nat
  success : Bool
  message : Option String
  error : Option String
  rules : Option (List JVal)

/-- Outcome of one `POST /api/add-availability-rule` request:
`putBody = none` means no PUT was issued; otherwise it is the
`availabilityRules` list of the PUT payload. -/
structure AddRuleOutcome where
  putBody : Option (List CleanRule)
  response : ApiResponse

/-- Embedding of the `/api/add-availability-rule` handler (source lines
157-296), with the two upstream exchanges as explicit arguments: the
initial GET response, and the response the PUT would receive were it
issued.  A non-200 GET aborts with no PUT; otherwise the cleaned
existing rules plus the new rule are PUT back, and the PUT's status
decides between the success and error responses. -/
def add_availability_rule (req : AddRuleRequest) (getResp : RulesGetResp)
    (putResp : PutResp) : AddRuleOutcome :=
  if getResp.status ≠ 200 then
    { putBody := none
      response :=
        { httpStatus := 400, success := false, message := none
          error := some ("Could not fetch existing rules: " ++ toString getResp.status
            ++ " " ++ getResp.text)
          rules := none } }
  else
    let existingRules := getResp.json.availabilityRules.getD []
    let apiBookingType := getResp.json.bookingType.getD "DATE_ONLY"
    let newRule := buildNewRule req.date req.capacity apiBookingType req.start_time_ids
    let updatedRules := existingRules.map (cleanRule apiBookingType) ++ [newRule]
    if putResp.status == 200 then
      let savedRules := putResp.savedRules.getD []
      { putBody := some updatedRules
        response :=
          { httpStatus := 200, success := true
            message := some ("Availability rule added! Total rules: "
              ++ toString savedRules.length)
            error := none
            rules := some savedRules } }
    else
      { putBody := some updatedRules
        response :=
          { httpStatus := 400, success := false, message := none
            error := some (toString putResp.status ++ ": " ++ putResp.text)
            rules := none } }

/-- One iteration of the `/api/experiences` loop: the upstream
`/activity.json/{eid}` response for one fixed experience id, with the
`id` and `title` fields of its parsed body. -/
structure ActivityResp where
  status : Nat
  text : String
  id : JVal
  title : JVal

/-- Response of `GET /api/experiences`: always `success: True` with the
collected items. -/
structure ExperiencesResponse where
  httpStatus : Nat
  success : Bool
  experiences : List (JVal × JVal)

/-- Embedding of the `/api/experiences` handler (source lines 69-89): for
each fixed experience id, a 200 response contributes
`{'id': ..., 'title': ...}`; any other status is only printed and the
experience is skipped.  The handler always answers
`{'success': True, 'experiences': ...}`. -/
def get_experiences (resps : List ActivityResp) : ExperiencesResponse :=
  { httpStatus := 200
    success := true
    experiences := (resps.filter fun r => r.status == 200).map fun r => (r.id, r.title) }

/-- The BOOKING_TYPE component GET used by `/api/get-availability-rules`:
status and the optional `bookingType` of the parsed body. -/
structure BookingTypeResp where
  status : Nat
  bookingType : Option String

/-- One start time of the activity-detail payload (`/activity.json/{id}`):
its id and the `hour` / `minute` fields the handler formats. -/
structure StartTimeDetail where
  id : JVal
  hour : Nat
  minute : Nat

/-- The activity-detail GET used by `/api/get-availability-rules`: status
and the `startTimes` list of the parsed body (`detail.get('startTimes',
[])`). -/
structure DetailResp where
  status : Nat
  startTimes : List StartTimeDetail

/-- Python's `str(n).zfill(2)` for the non-negative ints the source
formats: left-pad with `'0'` to width 2. -/
def zfill2 (s : String) : String :=
  if s.length ≥ 2 then s else String.mk (List.replicate (2 - s.length) '0' ++ s.data)

/-- Response of `GET /api/get-availability-rules/{id}`. -/
structure GetRulesResponse where
  httpStatus : Nat
  success : Bool
  rules : Option (List SrcRule)
  bookingType : Option String
  startTimes : Option (List (JVal × String))
  error : Option String

/-- Embedding of the `/api/get-availability-rules/{id}` handler (source
lines 115-155), with its three upstream exchanges explicit.  A non-200
AVAILABILITY_RULES fetch is answered with HTTP 400 and
`error = '<status>: <text>'`; a failed BOOKING_TYPE fetch silently
defaults to `DATE_ONLY`; start times are fetched from the activity
detail only for `DATE_AND_TIME` and each is labelled
`HH:MM` with zero-padded hour and minute. -/
def get_availability_rules (resp : RulesGetResp) (btResp : BookingTypeResp)
    (detailResp : DetailResp) : GetRulesResponse :=
  if resp.status == 200 then
    let rules := resp.json.availabilityRules.getD []
    let bookingType :=
      if btResp.status == 200 then btResp.bookingType.getD "DATE_ONLY" else "DATE_ONLY"
    let startTimes :=
      if bookingType == "DATE_AND_TIME" then
        if detailResp.status == 200 then
          detailResp.startTimes.map fun st =>
            (st.id, zfill2 (toString st.hour) ++ ":" ++ zfill2 (toString st.minute))
        else []
      else []
    { httpStatus := 200, success := true, rules := some rules
      bookingType := some bookingType, startTimes := some startTimes, error := none }
  else
    { httpStatus := 400, success := false, rules := none, bookingType := none
      startTimes := none
      error := some (toString resp.status ++ ": " ++ resp.text) }

/-- A cleaned rule read back as an input rule: the write-back shape is
itself a dict with only recognized keys, so the per-rule cleaning step
can be applied to it again.  This is the injection used to state
idempotence of the cleaning step. -/
def cleanToSrc (c : CleanRule) : SrcRule :=
  { recurrenceRule := c.recurrenceRule
    maxCapacity := c.maxCapacity
    maxCapacityForPickup := some c.maxCapacityForPickup
    minTotalPax := some c.minTotalPax
    guidedLanguages := some c.guidedLanguages
    id := c.id
    startTimes := c.startTimes.map JVal.arr
    allStartTimes := c.allStartTimes.map JVal.bool }

/-- Sample request used by the concrete witnesses: the spec's DATE_ONLY
end-to-end scenario (date 2025-06-01, capacity 12). -/
def sampleReq : AddRuleRequest :=
  { experience_id := 1084194, date := "2025-06-01", capacity := 12
    booking_type := "DATE_ONLY", start_time_ids := [], all_start_times := true }

/-- Sample failed AVAILABILITY_RULES fetch (upstream 500). -/
def sampleGetFail : RulesGetResp :=
  { status := 500, text := "Internal Server Error"
    json := { availabilityRules := none, bookingType := none } }

/-- Sample successful PUT response echoing one saved rule. -/
def samplePut200 : PutResp :=
  { status := 200, text := "", savedRules := some [.obj []] }

/-- C2: a non-200 status on the initial AVAILABILITY_RULES fetch makes
`/api/add-availability-rule` issue no PUT at all and answer
`success: False` with an error message embedding the fetch's status code
and response body. -/
theorem add_rule_fetch_failure_short_circuits (req : AddRuleRequest) (g : RulesGetResp)
    (p : PutResp) (h : g.status ≠ 200) :
    (add_availability_rule req g p).putBody = none ∧
    (add_availability_rule req g p).response.success = false ∧
    (add_availability_rule req g p).response.error =
      some ("Could not fetch existing rules: " ++ toString g.status ++ " " ++ g.text) := by
  simp [add_availability_rule, h]

/-- Witness for C2 at a concrete upstream 500. -/
theorem add_rule_fetch_failure_short_circuits_witness :
    sampleGetFail.status ≠ 200 ∧
    ((add_availability_rule sampleReq sampleGetFail samplePut200).putBody = none ∧
     (add_availability_rule sampleReq sampleGetFail samplePut200).response.success = false ∧
     (add_availability_rule sampleReq sampleGetFail samplePut200).response.error =
       some ("Could not fetch existing rules: " ++ toString sampleGetFail.status ++ " "
         ++ sampleGetFail.text)) :=
  ⟨by decide, add_rule_fetch_failure_short_circuits sampleReq sampleGetFail samplePut200 (by decide)⟩

/-- C3 counterexample: at the spec's own DATE_ONLY end-to-end scenario,
the new rule is not marked `allStartTimes: True` — the key is absent
(the whole start-time block runs only for `DATE_AND_TIME`). -/
theorem date_only_new_rule_all_start_times_cex :
    ¬ (buildNewRule "2025-06-01" 12 "DATE_ONLY" []).allStartTimes = some true := by
  decide

/-- C3 amended: if the authoritative booking type is `DATE_AND_TIME` and
the caller supplied ids, the new rule has `allStartTimes: False` and one
`{id}`-only object per supplied id in order; `DATE_AND_TIME` with no ids
gives `allStartTimes: True` and no `startTimes` key; any other booking
type (e.g. `DATE_ONLY`) gives a rule with neither key. -/
theorem build_new_rule_start_time_cases (date : String) (capacity : Int) (bt : String)
    (ids : List JVal) :
    (bt = "DATE_AND_TIME" → ids ≠ [] →
      (buildNewRule date capacity bt ids).allStartTimes = some false ∧
      (buildNewRule date capacity bt ids).startTimes =
        some (ids.map fun sid => JVal.obj [("id", sid)])) ∧
    (bt = "DATE_AND_TIME" → ids = [] →
      (buildNewRule date capacity bt ids).allStartTimes = some true ∧
      (buildNewRule date capacity bt ids).startTimes = none) ∧
    (bt ≠ "DATE_AND_TIME" →
      (buildNewRule date capacity bt ids).allStartTimes = none ∧
      (buildNewRule date capacity bt ids).startTimes = none) := by
  refine ⟨?_, ?_, ?_⟩ <;> intros <;> simp_all [buildNewRule]

/-- Witness for the amended C3: the spec's DATE_AND_TIME scenario with
selected ids 501 and 502. -/
theorem build_new_rule_start_time_cases_witness :
    ("DATE_AND_TIME" : String) = "DATE_AND_TIME" ∧
    ([JVal.int 501, JVal.int 502] : List JVal) ≠ [] ∧
    ((buildNewRule "2025-06-01" 12 "DATE_AND_TIME" [JVal.int 501, JVal.int 502]).allStartTimes =
        some false ∧
     (buildNewRule "2025-06-01" 12 "DATE_AND_TIME" [JVal.int 501, JVal.int 502]).startTimes =
       some ([JVal.int 501, JVal.int 502].map fun sid => JVal.obj [("id", sid)])) :=
  ⟨rfl, by simp,
    (build_new_rule_start_time_cases "2025-06-01" 12 "DATE_AND_TIME"
      [JVal.int 501, JVal.int 502]).1 rfl (by simp)⟩

/-- C5: the handler never reads the caller-supplied `booking_type`; with
identical upstream responses, two requests differing only in that field
produce the identical PUT payload and endpoint response (the booking
type that drives the build and the cleaning comes from the fetched
payload). -/
theorem add_rule_ignores_caller_booking_type (req : AddRuleRequest) (bt1 bt2 : String)
    (g : RulesGetResp) (p : PutResp) :
    add_availability_rule { req with booking_type := bt1 } g p =
      add_availability_rule { req with booking_type := bt2 } g p := rfl

/-- C9: the signer is a deterministic function of timestamp, access key,
secret key, method and path: recomputing it yields the identical header
set, and the signature is
`base64(HMAC-SHA1(secret_key, timestamp + access_key + upper(method) + path))`. -/
theorem signer_deterministic (accessKey secretKey dateStr method path : String) :
    get_bokun_headers accessKey secretKey dateStr method path =
      get_bokun_headers accessKey secretKey dateStr method path ∧
    get_bokun_headers accessKey secretKey dateStr method path =
      [("X-Bokun-Date", dateStr), ("X-Bokun-AccessKey", accessKey),
       ("X-Bokun-Signature",
         Crypto.base64Encode (Crypto.hmacSha1 (Crypto.strBytes secretKey)
           (Crypto.strBytes (dateStr ++ accessKey ++ method.toUpper ++ path)))),
       ("Content-Type", "application/json")] :=
  ⟨rfl, rfl⟩

/-- The recurrence window of the new rule is always the single requested
day, whatever the booking-type branch does. -/
theorem buildNewRule_recurrenceRule (date : String) (capacity : Int) (bt : String)
    (ids : List JVal) :
    (buildNewRule date capacity bt ids).recurrenceRule =
      JVal.obj [("startDate", .str date), ("endDate", .str date)] := by
  unfold buildNewRule
  split <;> (try split) <;> rfl

/-- The six unconditional fields of a cleaned rule, independent of the
start-time branch: window, capacities (with the pickup defaulting and
`< 1` replacement), party size, languages, id. -/
theorem cleanRule_base_fields (bt : String) (r : SrcRule) :
    (cleanRule bt r).recurrenceRule = r.recurrenceRule ∧
    (cleanRule bt r).maxCapacity = r.maxCapacity ∧
    (cleanRule bt r).maxCapacityForPickup =
      (if r.maxCapacityForPickup.getD r.maxCapacity < 1 then r.maxCapacity
        else r.maxCapacityForPickup.getD r.maxCapacity) ∧
    (cleanRule bt r).minTotalPax = r.minTotalPax.getD 1 ∧
    (cleanRule bt r).guidedLanguages = r.guidedLanguages.getD (.arr []) ∧
    (cleanRule bt r).id = r.id := by
  exact ⟨rfl, rfl, rfl, rfl, rfl, rfl⟩

/-- Sample existing rule used by the concrete witnesses. -/
def sampleSrcRule : SrcRule :=
  { recurrenceRule := .obj [("startDate", .str "2025-05-01"), ("endDate", .str "2025-05-01")]
    maxCapacity := 10, maxCapacityForPickup := some 10, minTotalPax := some 1
    guidedLanguages := some (.arr []), id := some (.int 77)
    startTimes := none, allStartTimes := none }

/-- Sample successful AVAILABILITY_RULES fetch holding one rule. -/
def sampleGet200 : RulesGetResp :=
  { status := 200, text := ""
    json := { availabilityRules := some [sampleSrcRule], bookingType := some "DATE_ONLY" } }

/-- C1: when the initial fetch succeeds with N rules, the PUT body is the
N cleaned rules in fetched order followed by the new rule — N + 1 rules
in all — and the new rule's recurrence window is the requested date on
both ends. -/
theorem add_rule_put_payload (req : AddRuleRequest) (g : RulesGetResp) (p : PutResp)
    (rules : List SrcRule) (h200 : g.status = 200)
    (hrules : g.json.availabilityRules = some rules) :
    (add_availability_rule req g p).putBody =
      some (rules.map (cleanRule (g.json.bookingType.getD "DATE_ONLY")) ++
        [buildNewRule req.date req.capacity (g.json.bookingType.getD "DATE_ONLY")
          req.start_time_ids]) ∧
    (rules.map (cleanRule (g.json.bookingType.getD "DATE_ONLY")) ++
      [buildNewRule req.date req.capacity (g.json.bookingType.getD "DATE_ONLY")
        req.start_time_ids]).length = rules.length + 1 ∧
    (buildNewRule req.date req.capacity (g.json.bookingType.getD "DATE_ONLY")
        req.start_time_ids).recurrenceRule =
      JVal.obj [("startDate", .str req.date), ("endDate", .str req.date)] := by
  refine ⟨?_, by simp, buildNewRule_recurrenceRule _ _ _ _⟩
  unfold add_availability_rule
  rw [if_neg (by simp [h200])]
  simp only [hrules, Option.getD_some]
  split <;> rfl

/-- Witness for C1: one existing rule, so the PUT body has two. -/
theorem add_rule_put_payload_witness :
    sampleGet200.status = 200 ∧
    sampleGet200.json.availabilityRules = some [sampleSrcRule] ∧
    ((add_availability_rule sampleReq sampleGet200 samplePut200).putBody =
      some ([sampleSrcRule].map (cleanRule (sampleGet200.json.bookingType.getD "DATE_ONLY")) ++
        [buildNewRule sampleReq.date sampleReq.capacity
          (sampleGet200.json.bookingType.getD "DATE_ONLY") sampleReq.start_time_ids]) ∧
     ([sampleSrcRule].map (cleanRule (sampleGet200.json.bookingType.getD "DATE_ONLY")) ++
       [buildNewRule sampleReq.date sampleReq.capacity
         (sampleGet200.json.bookingType.getD "DATE_ONLY") sampleReq.start_time_ids]).length =
       [sampleSrcRule].length + 1 ∧
     (buildNewRule sampleReq.date sampleReq.capacity
         (sampleGet200.json.bookingType.getD "DATE_ONLY") sampleReq.start_time_ids).recurrenceRule =
       JVal.obj [("startDate", .str sampleReq.date), ("endDate", .str sampleReq.date)]) :=
  ⟨rfl, rfl, add_rule_put_payload sampleReq sampleGet200 samplePut200 [sampleSrcRule] rfl rfl⟩

/-- Rule whose `maxCapacity` is itself 0: the pickup fallback then
yields a cleaned pickup capacity of 0. -/
def lowCapRule : SrcRule :=
  { recurrenceRule := .obj [], maxCapacity := 0, maxCapacityForPickup := none
    minTotalPax := none, guidedLanguages := none, id := none
    startTimes := none, allStartTimes := none }

/-- C6 counterexample: cleaning a rule with `maxCapacity = 0` and no
`maxCapacityForPickup` leaves the pickup capacity at 0, so the cleaned
collection does not always satisfy the data model's `≥ 1` requirement. -/
theorem clean_rule_pickup_ge_one_cex :
    ¬ 1 ≤ (cleanRule "DATE_ONLY" lowCapRule).maxCapacityForPickup := by
  decide

/-- C6 amended: a `maxCapacityForPickup` that is absent, 0 or negative
normalizes to `maxCapacity`; the cleaned pickup capacity is therefore
`≥ 1` whenever the rule's `maxCapacity` is `≥ 1` (the replacement value
is `maxCapacity` itself, which the code does not floor at 1). -/
theorem clean_rule_pickup_spec (bt : String) (r : SrcRule) :
    ((r.maxCapacityForPickup = none ∨ ∃ k, r.maxCapacityForPickup = some k ∧ k < 1) →
      (cleanRule bt r).maxCapacityForPickup = r.maxCapacity) ∧
    (1 ≤ r.maxCapacity → 1 ≤ (cleanRule bt r).maxCapacityForPickup) := by
  obtain ⟨-, -, hp, -, -, -⟩ := cleanRule_base_fields bt r
  constructor
  · rintro (h | ⟨k, hk, hlt⟩) <;> rw [hp]
    · simp [h]
    · simp [hk, hlt]
  · intro h1
    rw [hp]
    split <;> omega

/-- Rule with a zero pickup capacity but a positive `maxCapacity`. -/
def pickupZeroRule : SrcRule :=
  { recurrenceRule := .obj [], maxCapacity := 12, maxCapacityForPickup := some 0
    minTotalPax := none, guidedLanguages := none, id := none
    startTimes := none, allStartTimes := none }

/-- Witness for the amended C6: pickup 0 with `maxCapacity` 12
normalizes to 12. -/
theorem clean_rule_pickup_spec_witness :
    (pickupZeroRule.maxCapacityForPickup = none ∨
      ∃ k, pickupZeroRule.maxCapacityForPickup = some k ∧ k < 1) ∧
    (cleanRule "DATE_ONLY" pickupZeroRule).maxCapacityForPickup = pickupZeroRule.maxCapacity :=
  ⟨Or.inr ⟨0, rfl, by decide⟩,
    (clean_rule_pickup_spec "DATE_ONLY" pickupZeroRule).1 (Or.inr ⟨0, rfl, by decide⟩)⟩

/-- Request with caller-selected start-time ids, used to witness that a
missing `bookingType` ignores them. -/
def sampleReqWithIds : AddRuleRequest :=
  { sampleReq with start_time_ids := [.int 501], all_start_times := false }

/-- Fetched payload without a `bookingType` key. -/
def sampleGetNoBT : RulesGetResp :=
  { status := 200, text := ""
    json := { availabilityRules := some [], bookingType := none } }

/-- C10: a fetched AVAILABILITY_RULES payload with no `bookingType` key
defaults the booking type to `DATE_ONLY`: the new rule carries neither
`allStartTimes` nor `startTimes` (whatever ids the caller sent), and
cleaned existing rules get no start-time handling either. -/
theorem add_rule_missing_booking_type_defaults (req : AddRuleRequest) (g : RulesGetResp)
    (p : PutResp) (h200 : g.status = 200) (hbt : g.json.bookingType = none) :
    (add_availability_rule req g p).putBody =
      some ((g.json.availabilityRules.getD []).map (cleanRule "DATE_ONLY") ++
        [buildNewRule req.date req.capacity "DATE_ONLY" req.start_time_ids]) ∧
    (buildNewRule req.date req.capacity "DATE_ONLY" req.start_time_ids).allStartTimes = none ∧
    (buildNewRule req.date req.capacity "DATE_ONLY" req.start_time_ids).startTimes = none ∧
    ∀ r : SrcRule, (cleanRule "DATE_ONLY" r).allStartTimes = none ∧
      (cleanRule "DATE_ONLY" r).startTimes = none := by
  refine ⟨?_, by simp [buildNewRule], by simp [buildNewRule], fun r => ⟨?_, ?_⟩⟩
  · unfold add_availability_rule
    rw [if_neg (by simp [h200])]
    simp only [hbt, Option.getD_none]
    split <;> rfl
  · simp [cleanRule, cleanRuleStartTimes]
  · simp [cleanRule, cleanRuleStartTimes]

/-- Witness for C10 at a concrete payload with no `bookingType`, with the
caller nevertheless supplying a start-time id. -/
theorem add_rule_missing_booking_type_defaults_witness :
    sampleGetNoBT.status = 200 ∧
    sampleGetNoBT.json.bookingType = none ∧
    ((add_availability_rule sampleReqWithIds sampleGetNoBT samplePut200).putBody =
      some ((sampleGetNoBT.json.availabilityRules.getD []).map (cleanRule "DATE_ONLY") ++
        [buildNewRule sampleReqWithIds.date sampleReqWithIds.capacity "DATE_ONLY"
          sampleReqWithIds.start_time_ids]) ∧
     (buildNewRule sampleReqWithIds.date sampleReqWithIds.capacity "DATE_ONLY"
       sampleReqWithIds.start_time_ids).allStartTimes = none ∧
     (buildNewRule sampleReqWithIds.date sampleReqWithIds.capacity "DATE_ONLY"
       sampleReqWithIds.start_time_ids).startTimes = none ∧
     ∀ r : SrcRule, (cleanRule "DATE_ONLY" r).allStartTimes = none ∧
       (cleanRule "DATE_ONLY" r).startTimes = none) :=
  ⟨rfl, rfl,
    add_rule_missing_booking_type_defaults sampleReqWithIds sampleGetNoBT samplePut200 rfl rfl⟩

/-- The start-time cleaning loop keeps exactly the valid entries, in
order, each reduced to its id. -/
theorem cleanStartTimes_eq_filter_map (entries : List JVal) :
    cleanStartTimes entries =
      (entries.filter validStartTime).map fun st => JVal.obj [("id", startTimeId st)] := by
  induction entries with
  | nil => rfl
  | cons st tl ih =>
    cases st with
    | obj fields =>
        cases h : fields.lookup "id" with
        | none => simp [cleanStartTimes, validStartTime, h, ih]
        | some v =>
            by_cases ht : v.truthy <;>
              simp [cleanStartTimes, validStartTime, startTimeId, h, ht, ih]
    | null => simp [cleanStartTimes, validStartTime, ih]
    | bool b => simp [cleanStartTimes, validStartTime, ih]
    | int n => simp [cleanStartTimes, validStartTime, ih]
    | str s => simp [cleanStartTimes, validStartTime, ih]
    | arr elems => simp [cleanStartTimes, validStartTime, ih]

/-- The cleaning loop produces nothing exactly when no entry is a dict
with a truthy id. -/
theorem cleanStartTimes_eq_nil_iff (entries : List JVal) :
    cleanStartTimes entries = [] ↔ ∀ st ∈ entries, validStartTime st = false := by
  rw [cleanStartTimes_eq_filter_map]
  simp [List.filter_eq_nil_iff]

/-- C4: cleaning an existing rule under `DATE_AND_TIME` whose
`startTimes` is a non-empty list: if no entry is a dict with a truthy
id the cleaned rule has `allStartTimes: True` and no `startTimes` key;
if some entry is valid, the cleaned rule has `allStartTimes: False` and
`startTimes` equal to the `{id}`-only objects of the valid entries, in
order. -/
theorem clean_rule_start_times_cases (r : SrcRule) (entries : List JVal)
    (hst : r.startTimes = some (.arr entries)) (hne : entries ≠ []) :
    ((∀ st ∈ entries, validStartTime st = false) →
      (cleanRule "DATE_AND_TIME" r).allStartTimes = some true ∧
      (cleanRule "DATE_AND_TIME" r).startTimes = none) ∧
    ((∃ st ∈ entries, validStartTime st = true) →
      (cleanRule "DATE_AND_TIME" r).allStartTimes = some false ∧
      (cleanRule "DATE_AND_TIME" r).startTimes =
        some ((entries.filter validStartTime).map
          fun st => JVal.obj [("id", startTimeId st)])) := by
  constructor
  · intro hall
    have hnil : cleanStartTimes entries = [] := (cleanStartTimes_eq_nil_iff entries).2 hall
    simp [cleanRule, cleanRuleStartTimes, hst, hne, hnil]
  · rintro ⟨st, hmem, hvalid⟩
    have hnotnil : cleanStartTimes entries ≠ [] := by
      intro hnil
      have := (cleanStartTimes_eq_nil_iff entries).1 hnil st hmem
      simp [hvalid] at this
    have hnotall : ¬ ∀ a ∈ entries, validStartTime a = false := by
      intro hall
      have := hall st hmem
      simp [hvalid] at this
    simp [cleanRule, cleanRuleStartTimes, hst, hne, hnotnil, hnotall,
      cleanStartTimes_eq_filter_map]

/-- Existing `DATE_AND_TIME` rule whose `startTimes` mixes one valid
entry (id 501 with remote extras) with junk entries. -/
def datSrcRule : SrcRule :=
  { recurrenceRule := .obj [("startDate", .str "2025-04-01"), ("endDate", .str "2025-04-01")]
    maxCapacity := 8, maxCapacityForPickup := some 8, minTotalPax := some 1
    guidedLanguages := some (.arr []), id := some (.int 5)
    startTimes := some (.arr [.obj [("id", .int 501), ("externalId", .str "x")], .str "junk"])
    allStartTimes := some (.bool false) }

/-- Witness for C4 on the valid-id branch, at a concrete mixed list. -/
theorem clean_rule_start_times_cases_witness :
    datSrcRule.startTimes =
      some (.arr [.obj [("id", .int 501), ("externalId", .str "x")], .str "junk"]) ∧
    ([.obj [("id", .int 501), ("externalId", .str "x")], .str "junk"] : List JVal) ≠ [] ∧
    (∃ st ∈ ([.obj [("id", .int 501), ("externalId", .str "x")], .str "junk"] : List JVal),
      validStartTime st = true) ∧
    ((cleanRule "DATE_AND_TIME" datSrcRule).allStartTimes = some false ∧
     (cleanRule "DATE_AND_TIME" datSrcRule).startTimes =
       some ((([.obj [("id", .int 501), ("externalId", .str "x")],
           .str "junk"] : List JVal).filter validStartTime).map
         fun st => JVal.obj [("id", startTimeId st)])) :=
  ⟨rfl, by simp, ⟨.obj [("id", .int 501), ("externalId", .str "x")], by simp, rfl⟩,
    (clean_rule_start_times_cases datSrcRule _ rfl (by simp)).2
      ⟨.obj [("id", .int 501), ("externalId", .str "x")], by simp, rfl⟩⟩

/-- Cleaning start times twice is the same as cleaning them once: every
kept entry is already a dict holding only a truthy id. -/
theorem cleanStartTimes_idem (entries : List JVal) :
    cleanStartTimes (cleanStartTimes entries) = cleanStartTimes entries := by
  induction entries with
  | nil => rfl
  | cons st tl ih =>
    cases st with
    | obj fields =>
        cases h : fields.lookup "id" with
        | none => simp [cleanStartTimes, h, ih]
        | some v =>
            by_cases ht : v.truthy
            · simp [cleanStartTimes, h, ht, List.lookup, ih]
            · simp [cleanStartTimes, h, ht, ih]
    | null => simp [cleanStartTimes, ih]
    | bool b => simp [cleanStartTimes, ih]
    | int n => simp [cleanStartTimes, ih]
    | str s => simp [cleanStartTimes, ih]
    | arr elems => simp [cleanStartTimes, ih]

/-- Re-cleaning a cleaned rule recomputes the same start-time keys. -/
theorem cleanRuleStartTimes_cleanToSrc (bt : String) (r : SrcRule) :
    cleanRuleStartTimes bt (cleanToSrc (cleanRule bt r)) = cleanRuleStartTimes bt r := by
  by_cases hbt : (bt == "DATE_AND_TIME") = true
  · rcases hso : r.startTimes with _ | v
    · simp [cleanRuleStartTimes, cleanRule, cleanToSrc, hbt, hso]
    · cases v with
      | arr entries =>
          by_cases he : entries.isEmpty
          · simp [cleanRuleStartTimes, cleanRule, cleanToSrc, hbt, hso, he]
          · by_cases hc : (cleanStartTimes entries).isEmpty
            · simp [cleanRuleStartTimes, cleanRule, cleanToSrc, hbt, hso, he, hc]
            · simp [cleanRuleStartTimes, cleanRule, cleanToSrc, hbt, hso, he, hc,
                cleanStartTimes_idem]
      | null => simp [cleanRuleStartTimes, cleanRule, cleanToSrc, hbt, hso]
      | bool b => simp [cleanRuleStartTimes, cleanRule, cleanToSrc, hbt, hso]
      | int n => simp [cleanRuleStartTimes, cleanRule, cleanToSrc, hbt, hso]
      | str s => simp [cleanRuleStartTimes, cleanRule, cleanToSrc, hbt, hso]
      | obj fields => simp [cleanRuleStartTimes, cleanRule, cleanToSrc, hbt, hso]
  · simp [cleanRuleStartTimes, cleanRule, cleanToSrc, hbt]

/-- C7: at a fixed booking type, the per-rule cleaning step is
idempotent on rules made of recognized fields only: feeding a cleaned
rule back through the cleaning step reproduces it. -/
theorem clean_rule_idempotent (bt : String) (r : SrcRule) :
    cleanRule bt (cleanToSrc (cleanRule bt r)) = cleanRule bt r := by
  have hpair := cleanRuleStartTimes_cleanToSrc bt r
  apply CleanRule.ext
  · rfl
  · rfl
  · simp only [cleanRule, cleanToSrc, Option.getD_some]
    split_ifs <;> omega
  · rfl
  · rfl
  · rfl
  · exact congrArg Prod.fst hpair
  · exact congrArg Prod.snd hpair

/-- A failed per-experience fetch inside the `/api/experiences` loop. -/
def failedActivityResp : ActivityResp :=
  { status := 500, text := "Internal Server Error", id := .int 1084194, title := .str "Tour" }

/-- C8 counterexample: a per-experience upstream 500 inside
`GET /api/experiences` is not propagated as `success: False` — the
handler answers `success: True` and silently omits the failed
experience. -/
theorem get_experiences_failure_cex :
    (get_experiences [failedActivityResp]).success = true ∧
    (get_experiences [failedActivityResp]).experiences = [] := by
  constructor <;> rfl

/-- C8 amended: `/api/get-availability-rules` and the PUT step of
`/api/add-availability-rule` propagate an upstream non-2xx as HTTP 400
with `{success: False, error: '<status>: <body>'}`; `GET
/api/experiences` instead always answers `success: True`, keeping only
the experiences whose fetch returned 200 and silently dropping the
rest. -/
theorem upstream_error_propagation (g : RulesGetResp) (bt : BookingTypeResp)
    (d : DetailResp) (req : AddRuleRequest) (p : PutResp) (resps : List ActivityResp) :
    (g.status ≠ 200 →
      (get_availability_rules g bt d).httpStatus = 400 ∧
      (get_availability_rules g bt d).success = false ∧
      (get_availability_rules g bt d).error =
        some (toString g.status ++ ": " ++ g.text)) ∧
    (g.status = 200 → p.status ≠ 200 →
      (add_availability_rule req g p).response.httpStatus = 400 ∧
      (add_availability_rule req g p).response.success = false ∧
      (add_availability_rule req g p).response.error =
        some (toString p.status ++ ": " ++ p.text)) ∧
    ((get_experiences resps).success = true ∧
      (get_experiences resps).experiences =
        (resps.filter fun r => r.status == 200).map fun r => (r.id, r.title)) := by
  refine ⟨fun h => ?_, fun h200 hp => ?_, rfl, rfl⟩
  · simp [get_availability_rules, h]
  · simp [add_availability_rule, h200, hp]

/-- Sample failed PUT response. -/
def samplePutFail : PutResp := { status := 503, text := "upstream down", savedRules := none }

/-- Witness for the amended C8: a 500 on the rules fetch, and a 503 on
the PUT after a successful fetch. -/
theorem upstream_error_propagation_witness :
    sampleGetFail.status ≠ 200 ∧
    ((get_availability_rules sampleGetFail { status := 200, bookingType := some "DATE_ONLY" }
        { status := 200, startTimes := [] }).httpStatus = 400 ∧
      (get_availability_rules sampleGetFail { status := 200, bookingType := some "DATE_ONLY" }
        { status := 200, startTimes := [] }).success = false ∧
      (get_availability_rules sampleGetFail { status := 200, bookingType := some "DATE_ONLY" }
        { status := 200, startTimes := [] }).error =
        some (toString sampleGetFail.status ++ ": " ++ sampleGetFail.text)) ∧
    sampleGet200.status = 200 ∧ samplePutFail.status ≠ 200 ∧
    ((add_availability_rule sampleReq sampleGet200 samplePutFail).response.httpStatus = 400 ∧
      (add_availability_rule sampleReq sampleGet200 samplePutFail).response.success = false ∧
      (add_availability_rule sampleReq sampleGet200 samplePutFail).response.error =
        some (toString samplePutFail.status ++ ": " ++ samplePutFail.text)) :=
  ⟨by decide,
    (upstream_error_propagation sampleGetFail { status := 200, bookingType := some "DATE_ONLY" }
      { status := 200, startTimes := [] } sampleReq samplePutFail []).1 (by decide),
    rfl, by decide,
    (upstream_error_propagation sampleGet200 { status := 200, bookingType := some "DATE_ONLY" }
      { status := 200, startTimes := [] } sampleReq samplePutFail []).2.1 rfl (by decide)⟩

-- Validation of the crypto embedding against FIPS 180-4's "abc" test
-- vector and against the signature the source's stack produces for a
-- concrete Bokun signing string.
set_option maxRecDepth 100000 in
example : Crypto.sha1 (Crypto.strBytes "abc") =
    [0xa9, 0x99, 0x3e, 0x36, 0x47, 0x06, 0x81, 0x6a, 0xba, 0x3e,
     0x25, 0x71, 0x78, 0x50, 0xc2, 0x6c, 0x9c, 0xd0, 0xd8, 0x9d] := by decide

set_option maxRecDepth 400000 in
example :
    Crypto.base64Encode (Crypto.hmacSha1
      (Crypto.strBytes "0bd28b4cff1340749168428d675f6b2a")
      (Crypto.strBytes
        "2025-06-01 10:00:00b048bb24bc604475aaa503ac29f9caaeGET/activity.json/1084194")) =
    "LIu6YfRWkY0Jtob+z03xFxV9xB4=" := by decide

-- The spec's DATE_ONLY end-to-end scenario: no existing rules, date
-- 2025-06-01, capacity 12 — one written rule, both capacities 12, no
-- start-time keys, single-day window.
example :
    (add_availability_rule sampleReq
      { status := 200, text := ""
        json := { availabilityRules := some [], bookingType := some "DATE_ONLY" } }
      samplePut200).putBody =
    some [{ recurrenceRule := .obj [("startDate", .str "2025-06-01"),
              ("endDate", .str "2025-06-01")]
            maxCapacity := 12, maxCapacityForPickup := 12, minTotalPax := 1
            guidedLanguages := .arr [], id := none
            allStartTimes := none, startTimes := none }] := rfl

-- The spec's DATE_AND_TIME end-to-end scenario: selected ids 501 and
-- 502 — the written rule has allStartTimes False and the two bare ids.
example :
    (add_availability_rule
      { sampleReq with booking_type := "DATE_AND_TIME"
                       start_time_ids := [.int 501, .int 502], all_start_times := false }
      { status := 200, text := ""
        json := { availabilityRules := some [], bookingType := some "DATE_AND_TIME" } }
      samplePut200).putBody =
    some [{ recurrenceRule := .obj [("startDate", .str "2025-06-01"),
              ("endDate", .str "2025-06-01")]
            maxCapacity := 12, maxCapacityForPickup := 12, minTotalPax := 1
            guidedLanguages := .arr [], id := none
            allStartTimes := some false
            startTimes := some [.obj [("id", .int 501)], .obj [("id", .int 502)]] }] := rfl
